import Mathlib

/-!
Shallow embedding of the Rent-vs-Buy projection engine
(`src/rent_vs_buy_app.py`) over exact rational arithmetic.

The year-indexed pandas Series of the source are modelled as `List ℚ`
of length `time_frame + 1`; positional assignment (`.iloc[i] = v`,
which raises on an out-of-range index) is modelled by `setIdx`
returning `Option`, slice assignment (`.iloc[lo:hi] = v`, which clips)
by `setSlice`, elementwise arithmetic by `List.zipWith`, `cumprod` by
`List.scanl`, and the running-accumulation loop for the renting
scenario by `List.scanl` as well.

The external `mortgage.Loan` class is not part of the repository; where
its internals are needed they are modelled from the spec (see the
definitions marked `Modelled from the spec`).  Everywhere else the
loan's monthly payment `M` and balance function `bal` are abstract
parameters.
-/

namespace RentVsBuy

/-- Source line 51: the nominal annual percentage rate is converted to the
effective annual rate of daily compounding,
`math.pow((1 + home_loan_rate/100/365), 365) - 1`. -/
def home_loan_rate_daily_compound (home_loan_rate : ℚ) : ℚ :=
  (1 + home_loan_rate / 100 / 365) ^ (365 : ℕ) - 1

/-- The full parameter set of `main`: user inputs read from the sidebar
widgets plus the constants fixed at source lines 121-129 (`inflation`,
`rent_inflation`, `time_frame`, `max_rent`), kept as fields so the engine
is a pure function of its inputs. `home_loan_rate` is the nominal annual
rate in percent, before the daily-compounding conversion. -/
structure Params where
  house_price : ℚ
  deposit_pct : ℚ
  term : ℕ
  home_loan_rate : ℚ
  strata_council_cost : ℚ
  home_insurance : ℚ
  transport_cost : ℚ
  weekly_rent : ℚ
  property_return : ℚ
  portfolio_return : ℚ
  inflation : ℚ
  rent_inflation : ℚ
  time_frame : ℕ
  max_rent : ℚ

/-- Source line 134: `deposit_amt = house_price * deposit_pct`. -/
def deposit_amt (p : Params) : ℚ := p.house_price * p.deposit_pct

/-- Source line 135: the principal handed to `Loan` is
`house_price - deposit_amt`. -/
def loan_principal (p : Params) : ℚ := p.house_price - deposit_amt p

/-- Source lines 133-136: the interest handed to `Loan` is the
daily-compounded effective rate, not the nominal rate. -/
def loan_interest (p : Params) : ℚ :=
  home_loan_rate_daily_compound p.home_loan_rate

/-- Source line 140: `maintenance_cost = 0.01 * house_price` (a constant;
it is never re-derived from the appreciated value). -/
def maintenance_cost (p : Params) : ℚ := 0.01 * p.house_price

/-- Source line 141. -/
def total_ownership_cost (p : Params) : ℚ :=
  maintenance_cost p + p.strata_council_cost * 4 + p.home_insurance * 12 +
    p.transport_cost * 52

/-- `np.zeros(n)` as a list of rationals. -/
def zeros (n : ℕ) : List ℚ := List.replicate n 0

/-- Positional single-element assignment `s.iloc[i] = v`: pandas raises
`IndexError` when `i` is out of range, modelled by `none`. -/
def setIdx (l : List ℚ) (i : ℕ) (v : ℚ) : Option (List ℚ) :=
  if i < l.length then some (l.set i v) else none

/-- Positional slice assignment `s.iloc[lo:hi] = v`: indices in
`[lo, hi)` receive `v`; like a Python slice it clips to the length. -/
def setSlice (l : List ℚ) (lo hi : ℕ) (v : ℚ) : List ℚ :=
  l.mapIdx (fun i x => if lo ≤ i ∧ i < hi then v else x)

/-- Source line 153: `years = pd.Series(np.arange(time_frame+1))`. -/
def years (p : Params) : List ℕ := List.range (p.time_frame + 1)

/-- Source line 155. -/
def cumulative_inflation (p : Params) : List ℚ :=
  (years p).map (fun x => (1 + p.inflation) ^ x)

/-- Source line 156. -/
def cumulative_rent_inflation (p : Params) : List ℚ :=
  (years p).map (fun x => (1 + p.rent_inflation) ^ x)

/-- Source lines 158-160: zeros, then `.iloc[1:term+1] = M*12`, then
`.iloc[0] = deposit_amt`.  `M` is the loan's monthly payment, an abstract
parameter here. -/
def loan_payments (p : Params) (M : ℚ) : List ℚ :=
  (setSlice (zeros (p.time_frame + 1)) 1 (p.term + 1) (M * 12)).set 0
    (deposit_amt p)

/-- Source lines 162-165: zeros, `.iloc[1:] = total_ownership_cost`,
`.iloc[0] = 0`, then elementwise product with `cumulative_inflation`. -/
def ownership_costs (p : Params) : List ℚ :=
  List.zipWith (· * ·)
    ((setSlice (zeros (p.time_frame + 1)) 1 (p.time_frame + 1)
        (total_ownership_cost p)).set 0 0)
    (cumulative_inflation p)

/-- Source lines 167-171: zeros, `.iloc[1:] = weekly_rent * 52`,
`.iloc[0] = 0`, elementwise product with `cumulative_rent_inflation`,
then the cap `rent_costs.loc[rent_costs > max_rent] = max_rent`. -/
def rent_costs (p : Params) : List ℚ :=
  (List.zipWith (· * ·)
      ((setSlice (zeros (p.time_frame + 1)) 1 (p.time_frame + 1)
          (p.weekly_rent * 52)).set 0 0)
      (cumulative_rent_inflation p)).map
    (fun x => if x > p.max_rent then p.max_rent else x)

/-- Source line 173: `savings_rent_vs_buy = ownership_costs + loan_payments
- rent_costs` (elementwise). -/
def savings_rent_vs_buy (p : Params) (M : ℚ) : List ℚ :=
  List.zipWith (· - ·)
    (List.zipWith (· + ·) (ownership_costs p) (loan_payments p M))
    (rent_costs p)

/-- Source lines 175-177: zeros, `[0] = 1`, `[1:] = 1 + property_return`. -/
def yearly_property_returns (p : Params) : List ℚ :=
  setSlice ((zeros (p.time_frame + 1)).set 0 1) 1 (p.time_frame + 1)
    (1 + p.property_return)

/-- Pandas `Series.cumprod`: running product, first element kept as is. -/
def cumprod (l : List ℚ) : List ℚ := (List.scanl (· * ·) 1 l).drop 1

/-- Source line 178. -/
def cumulative_property_return (p : Params) : List ℚ :=
  cumprod (yearly_property_returns p)

/-- Source lines 185-188: the loan-balance loop.  Starting from
`zeros(time_frame+1)`, for `year` in `range(term)` it assigns
`balances.iloc[year] = bal(12*year + 1)` where `bal` is
`home_loan.schedule(k).balance`.  Each `.iloc` write is fallible, so the
whole loop is `none` as soon as an index is out of range. -/
def balancesLoop (bal : ℕ → ℚ) (time_frame term : ℕ) : Option (List ℚ) :=
  (List.range term).foldl
    (fun acc year => acc.bind (fun l => setIdx l year (bal (12 * year + 1))))
    (some (zeros (time_frame + 1)))

/-- The balance series of `main`, from the loop at source lines 185-188. -/
def balances (p : Params) (bal : ℕ → ℚ) : Option (List ℚ) :=
  balancesLoop bal p.time_frame p.term

/-- Source line 190: `asset_values_owning = cumulative_property_return *
house_price - balances` (elementwise), given the computed balance list. -/
def asset_values_owning (p : Params) (bl : List ℚ) : List ℚ :=
  List.zipWith (fun c b => c * p.house_price - b)
    (cumulative_property_return p) bl

/-- Source lines 192-196: the renting-scenario accumulation.
`asset_value` starts at 0 and for each year becomes
`asset_value * (1 + portfolio_return) + savings_rent_vs_buy[year]`;
the written values are the tail of a `scanl`. -/
def asset_values_renting (p : Params) (M : ℚ) : List ℚ :=
  (List.scanl (fun acc s => acc * (1 + p.portfolio_return) + s) 0
      (savings_rent_vs_buy p M)).drop 1

/-- The domain of valid inputs, read off the sidebar widgets
(source lines 29-111: each widget's `min_value`/`max_value`, with the
percentage sliders divided by 100) together with the constants fixed in
`main` (source lines 121-129). -/
def Valid (p : Params) : Prop :=
  300000 ≤ p.house_price ∧ p.house_price ≤ 5000000 ∧
  0 ≤ p.deposit_pct ∧ p.deposit_pct ≤ 1 ∧
  5 ≤ p.term ∧ p.term ≤ 30 ∧
  1 ≤ p.home_loan_rate ∧ p.home_loan_rate ≤ 10 ∧
  0 ≤ p.strata_council_cost ∧ p.strata_council_cost ≤ 10000 ∧
  0 ≤ p.home_insurance ∧ p.home_insurance ≤ 2000 ∧
  0 ≤ p.transport_cost ∧ p.transport_cost ≤ 1000 ∧
  100 ≤ p.weekly_rent ∧ p.weekly_rent ≤ 5000 ∧
  0 ≤ p.property_return ∧ p.property_return ≤ 1/5 ∧
  0 ≤ p.portfolio_return ∧ p.portfolio_return ≤ 1/5 ∧
  p.inflation = 1/50 ∧ p.rent_inflation = 3/100 ∧
  p.time_frame = 50 ∧ p.max_rent = 100000

/-- Error taxonomy of the spec (section 7). -/
inductive EngineError where
  | invalidParameter : EngineError
  | arithmeticAnomaly : EngineError
deriving DecidableEq

/-- Modelled from the spec: the `mortgage.Loan` monthly payment (the
library is absent from `src/`).  Section 4.1: `payment = principal * r /
(1 - (1+r)^-n)` with `r` the monthly rate derived from the annual rate and
`n = termYears*12`; when the annual rate is 0, `payment = principal / n`. -/
def monthly_payment (principal annualRate : ℚ) (termYears : ℕ) : ℚ :=
  let r := annualRate / 12
  let n := termYears * 12
  if annualRate = 0 then principal / n
  else principal * r / (1 - (1 + r) ^ (-(n : ℤ)))

/-- Modelled from the spec: the `mortgage.Loan` outstanding balance after
`k` periods (the library is absent from `src/`).  Section 4.1: the
closed-form amortization balance, `balanceAfter(0) = principal`. -/
def balance_after (principal annualRate : ℚ) (termYears k : ℕ) : ℚ :=
  let r := annualRate / 12
  if annualRate = 0 then
    principal - monthly_payment principal annualRate termYears * k
  else
    principal * (1 + r) ^ k -
      monthly_payment principal annualRate termYears * (((1 + r) ^ k - 1) / r)

/-- The monthly payment of the home loan constructed at source
lines 135-136: principal `house_price - deposit_amt`, interest the
daily-compounded effective rate. -/
def home_loan_M (p : Params) : ℚ :=
  monthly_payment (loan_principal p) (loan_interest p) p.term

/-- The balance function of the home loan constructed at source
lines 135-136. -/
def home_loan_bal (p : Params) (k : ℕ) : ℚ :=
  balance_after (loan_principal p) (loan_interest p) p.term k

/-- The six output series of the projection engine (spec section 4.2). -/
structure Output where
  ownershipCost : List ℚ
  loanPayment : List ℚ
  rentCost : List ℚ
  expenseDifference : List ℚ
  propertyAssetValue : List ℚ
  portfolioAssetValue : List ℚ

/-- Modelled from the spec: the projection-engine entry point with its
fail-fast validation (spec sections 4.2 and 7; `src/` has no explicit
engine boundary — input domains there are enforced by the sidebar widget
bounds and by the absent `mortgage` library's own checks).  Inputs outside
the domain of section 3 are rejected with `invalidParameter` before any
series is computed. -/
def project (p : Params) : Except EngineError Output :=
  if 0 ≤ p.deposit_pct ∧ p.deposit_pct ≤ 1 ∧ 0 < p.time_frame ∧
      0 ≤ p.home_loan_rate ∧ 0 ≤ p.inflation ∧ 0 ≤ p.rent_inflation ∧
      0 ≤ p.property_return ∧ 0 ≤ p.portfolio_return ∧
      0 < loan_principal p ∧ 0 < p.term then
    match balances p (home_loan_bal p) with
    | none => Except.error EngineError.arithmeticAnomaly
    | some bl =>
        Except.ok
          { ownershipCost := ownership_costs p
            loanPayment := loan_payments p (home_loan_M p)
            rentCost := rent_costs p
            expenseDifference := savings_rent_vs_buy p (home_loan_M p)
            propertyAssetValue := asset_values_owning p bl
            portfolioAssetValue := asset_values_renting p (home_loan_M p) }
  else Except.error EngineError.invalidParameter

/-! ### Generic lemmas about the list combinators -/

theorem length_zeros (n : ℕ) : (zeros n).length = n := by
  simp [zeros]

theorem zeros_getElem? (n i : ℕ) :
    (zeros n)[i]? = if i < n then some (0 : ℚ) else none := by
  simp [zeros, List.getElem?_replicate]

theorem length_setSlice (l : List ℚ) (lo hi : ℕ) (v : ℚ) :
    (setSlice l lo hi v).length = l.length := by
  simp [setSlice]

theorem setSlice_getElem? (l : List ℚ) (lo hi : ℕ) (v : ℚ) (i : ℕ) :
    (setSlice l lo hi v)[i]? =
      Option.map (fun x => if lo ≤ i ∧ i < hi then v else x) l[i]? := by
  simp [setSlice, List.getElem?_mapIdx]

theorem zipWith_getElem?_eq (f : ℚ → ℚ → ℚ) (a b : List ℚ) (i : ℕ) :
    (List.zipWith f a b)[i]? = Option.map₂ f a[i]? b[i]? := by
  rw [List.getElem?_zipWith]
  cases a[i]? <;> cases b[i]? <;> simp [Option.map₂]

theorem scanl_getElem?_zero (f : ℚ → ℚ → ℚ) (b : ℚ) (l : List ℚ) :
    (List.scanl f b l)[0]? = some b := by
  cases l <;> simp [List.scanl]

theorem scanl_getElem?_succ (f : ℚ → ℚ → ℚ) (l : List ℚ) :
    ∀ (b : ℚ) (i : ℕ),
      (List.scanl f b l)[i + 1]? = Option.map₂ f (List.scanl f b l)[i]? l[i]? := by
  induction l with
  | nil =>
      intro b i
      cases i <;> simp [List.scanl, Option.map₂]
  | cons a l ih =>
      intro b i
      cases i with
      | zero =>
          simp [List.scanl_cons, scanl_getElem?_zero, Option.map₂]
      | succ i =>
          simp only [List.scanl_cons, List.singleton_append,
            List.getElem?_cons_succ]
          exact ih (f b a) i

/-! ### The balance loop -/

theorem balancesLoop_zero (bal : ℕ → ℚ) (n : ℕ) :
    balancesLoop bal n 0 = some (zeros (n + 1)) := rfl

theorem balancesLoop_succ (bal : ℕ → ℚ) (n t : ℕ) :
    balancesLoop bal n (t + 1) =
      (balancesLoop bal n t).bind (fun l => setIdx l t (bal (12 * t + 1))) := by
  simp [balancesLoop, List.range_succ, List.foldl_append]

theorem balancesLoop_length (bal : ℕ → ℚ) (n : ℕ) :
    ∀ (t : ℕ) (l : List ℚ), balancesLoop bal n t = some l → l.length = n + 1 := by
  intro t
  induction t with
  | zero =>
      intro l h
      rw [balancesLoop_zero] at h
      injection h with h
      rw [← h, length_zeros]
  | succ t ih =>
      intro l h
      rw [balancesLoop_succ] at h
      cases hl' : balancesLoop bal n t with
      | none =>
          rw [hl', Option.none_bind] at h
          exact Option.noConfusion h
      | some l' =>
          rw [hl', Option.some_bind] at h
          unfold setIdx at h
          split at h
          · injection h with h
            rw [← h, List.length_set]
            exact ih l' hl'
          · exact Option.noConfusion h

theorem balancesLoop_isSome (bal : ℕ → ℚ) (n : ℕ) :
    ∀ t : ℕ, t ≤ n + 1 → (balancesLoop bal n t).isSome = true := by
  intro t
  induction t with
  | zero => intro _; rw [balancesLoop_zero]; rfl
  | succ t ih =>
      intro ht
      rw [balancesLoop_succ]
      obtain ⟨l', hl'⟩ := Option.isSome_iff_exists.mp (ih (by omega))
      rw [hl', Option.some_bind]
      have hlen := balancesLoop_length bal n t l' hl'
      unfold setIdx
      rw [if_pos (by rw [hlen]; omega)]
      rfl

theorem balancesLoop_getElem? (bal : ℕ → ℚ) (n : ℕ) :
    ∀ (t : ℕ) (l : List ℚ), balancesLoop bal n t = some l → t ≤ n + 1 →
      ∀ y : ℕ, y ≤ n →
        l[y]? = some (if y < t then bal (12 * y + 1) else 0) := by
  intro t
  induction t with
  | zero =>
      intro l h _ y hy
      rw [balancesLoop_zero] at h
      injection h with h
      rw [← h, zeros_getElem?, if_pos (by omega), if_neg (by omega)]
  | succ t ih =>
      intro l h ht y hy
      rw [balancesLoop_succ] at h
      cases hl' : balancesLoop bal n t with
      | none =>
          rw [hl', Option.none_bind] at h
          exact Option.noConfusion h
      | some l' =>
          rw [hl', Option.some_bind] at h
          unfold setIdx at h
          split at h
          · injection h with h
            rw [← h, List.getElem?_set]
            by_cases hty : t = y
            · subst hty
              rw [if_pos rfl, if_pos (by omega), if_pos (by omega)]
            · rw [if_neg hty, ih l' hl' (by omega) y hy]
              exact congrArg some (if_congr (by omega) rfl rfl)
          · exact Option.noConfusion h

/-! ### Pointwise characterization of each series -/

theorem length_cumulative_inflation (p : Params) :
    (cumulative_inflation p).length = p.time_frame + 1 := by
  simp [cumulative_inflation, years]

theorem length_cumulative_rent_inflation (p : Params) :
    (cumulative_rent_inflation p).length = p.time_frame + 1 := by
  simp [cumulative_rent_inflation, years]

theorem cumulative_inflation_getElem? (p : Params) (y : ℕ)
    (hy : y ≤ p.time_frame) :
    (cumulative_inflation p)[y]? = some ((1 + p.inflation) ^ y) := by
  rw [cumulative_inflation, years, List.getElem?_map,
    List.getElem?_range (by omega), Option.map_some']

theorem cumulative_rent_inflation_getElem? (p : Params) (y : ℕ)
    (hy : y ≤ p.time_frame) :
    (cumulative_rent_inflation p)[y]? = some ((1 + p.rent_inflation) ^ y) := by
  rw [cumulative_rent_inflation, years, List.getElem?_map,
    List.getElem?_range (by omega), Option.map_some']

theorem base_series_getElem? (n : ℕ) (v : ℚ) (y : ℕ) (hy : y ≤ n) :
    ((setSlice (zeros (n + 1)) 1 (n + 1) v).set 0 0)[y]? =
      some (if y = 0 then 0 else v) := by
  rw [List.getElem?_set]
  by_cases h0 : y = 0
  · subst h0
    rw [if_pos rfl, if_pos (by rw [length_setSlice, length_zeros]; omega),
      if_pos rfl]
  · rw [if_neg (by omega : ¬ 0 = y), setSlice_getElem?, zeros_getElem?,
      if_pos (by omega), Option.map_some', if_pos (by omega), if_neg h0]

theorem loan_payments_getElem? (p : Params) (M : ℚ) (y : ℕ)
    (hy : y ≤ p.time_frame) :
    (loan_payments p M)[y]? =
      some (if y = 0 then deposit_amt p
        else if y ≤ p.term then M * 12 else 0) := by
  rw [loan_payments, List.getElem?_set]
  by_cases h0 : y = 0
  · subst h0
    rw [if_pos rfl, if_pos (by rw [length_setSlice, length_zeros]; omega),
      if_pos rfl]
  · rw [if_neg (by omega : ¬ 0 = y), setSlice_getElem?, zeros_getElem?,
      if_pos (by omega), Option.map_some', if_neg h0]
    exact congrArg some (if_congr (by omega) rfl rfl)

theorem length_loan_payments (p : Params) (M : ℚ) :
    (loan_payments p M).length = p.time_frame + 1 := by
  rw [loan_payments, List.length_set, length_setSlice, length_zeros]

theorem ownership_costs_getElem? (p : Params) (y : ℕ)
    (hy : y ≤ p.time_frame) :
    (ownership_costs p)[y]? =
      some (if y = 0 then 0
        else total_ownership_cost p * (1 + p.inflation) ^ y) := by
  rw [ownership_costs, zipWith_getElem?_eq,
    base_series_getElem? p.time_frame (total_ownership_cost p) y hy,
    cumulative_inflation_getElem? p y hy]
  by_cases h0 : y = 0
  · subst h0; simp [Option.map₂]
  · simp [Option.map₂, h0]

theorem length_ownership_costs (p : Params) :
    (ownership_costs p).length = p.time_frame + 1 := by
  rw [ownership_costs, List.length_zipWith, List.length_set, length_setSlice,
    length_zeros, length_cumulative_inflation, min_self]

theorem cap_eq_min (x m : ℚ) : (if x > m then m else x) = min x m := by
  rcases le_or_lt x m with h | h
  · rw [if_neg (not_lt.mpr h), min_eq_left h]
  · rw [if_pos h, min_eq_right h.le]

theorem rent_costs_getElem? (p : Params) (y : ℕ) (hy : y ≤ p.time_frame) :
    (rent_costs p)[y]? =
      some (min (if y = 0 then 0 else p.weekly_rent * 52 * (1 + p.rent_inflation) ^ y)
        p.max_rent) := by
  rw [rent_costs, List.getElem?_map, zipWith_getElem?_eq,
    base_series_getElem? p.time_frame (p.weekly_rent * 52) y hy,
    cumulative_rent_inflation_getElem? p y hy]
  by_cases h0 : y = 0
  · subst h0
    simp [Option.map₂, cap_eq_min]
  · simp [Option.map₂, cap_eq_min, h0]

theorem length_rent_costs (p : Params) :
    (rent_costs p).length = p.time_frame + 1 := by
  rw [rent_costs, List.length_map, List.length_zipWith, List.length_set,
    length_setSlice, length_zeros, length_cumulative_rent_inflation, min_self]

theorem length_savings (p : Params) (M : ℚ) :
    (savings_rent_vs_buy p M).length = p.time_frame + 1 := by
  rw [savings_rent_vs_buy, List.length_zipWith, List.length_zipWith,
    length_ownership_costs, length_loan_payments, length_rent_costs,
    min_self, min_self]

theorem yearly_property_returns_getElem? (p : Params) (y : ℕ)
    (hy : y ≤ p.time_frame) :
    (yearly_property_returns p)[y]? =
      some (if y = 0 then 1 else 1 + p.property_return) := by
  rw [yearly_property_returns, setSlice_getElem?, List.getElem?_set]
  by_cases h0 : y = 0
  · subst h0
    rw [if_pos rfl, if_pos (by rw [length_zeros]; omega), Option.map_some',
      if_neg (by omega), if_pos rfl]
  · rw [if_neg (by omega : ¬ 0 = y), zeros_getElem?, if_pos (by omega),
      Option.map_some', if_pos (by omega), if_neg h0]

theorem cumulative_property_return_getElem? (p : Params) :
    ∀ y : ℕ, y ≤ p.time_frame →
      (cumulative_property_return p)[y]? =
        some ((1 + p.property_return) ^ y) := by
  intro y
  induction y with
  | zero =>
      intro _
      rw [cumulative_property_return, cumprod, List.getElem?_drop,
        (by omega : 1 + 0 = 0 + 1), scanl_getElem?_succ, scanl_getElem?_zero,
        yearly_property_returns_getElem? p 0 (by omega)]
      simp [Option.map₂]
  | succ y ih =>
      intro hy
      rw [cumulative_property_return, cumprod, List.getElem?_drop,
        (by omega : 1 + (y + 1) = (1 + y) + 1), scanl_getElem?_succ]
      have h1 : (List.scanl (· * ·) 1 (yearly_property_returns p))[1 + y]? =
          some ((1 + p.property_return) ^ y) := by
        have := ih (by omega)
        rw [cumulative_property_return, cumprod, List.getElem?_drop] at this
        exact this
      rw [h1, yearly_property_returns_getElem? p (1 + y) (by omega),
        if_neg (by omega)]
      simp only [Option.map₂, Option.some_bind, Option.map_some']
      rw [← pow_succ]

theorem length_cumulative_property_return (p : Params) :
    (cumulative_property_return p).length = p.time_frame + 1 := by
  rw [cumulative_property_return, cumprod, List.length_drop,
    List.length_scanl, yearly_property_returns, length_setSlice,
    List.length_set, length_zeros]
  omega

theorem asset_values_owning_getElem? (p : Params) (bl : List ℚ) (y : ℕ)
    (hy : y ≤ p.time_frame) (b : ℚ) (hb : bl[y]? = some b) :
    (asset_values_owning p bl)[y]? =
      some ((1 + p.property_return) ^ y * p.house_price - b) := by
  rw [asset_values_owning, zipWith_getElem?_eq,
    cumulative_property_return_getElem? p y hy, hb]
  rfl

theorem asset_values_renting_zero (p : Params) (M : ℚ) :
    (asset_values_renting p M)[0]? = (savings_rent_vs_buy p M)[0]? := by
  rw [asset_values_renting, List.getElem?_drop,
    (by omega : 1 + 0 = 0 + 1), scanl_getElem?_succ, scanl_getElem?_zero]
  cases h : (savings_rent_vs_buy p M)[0]? <;> simp [Option.map₂]

theorem asset_values_renting_succ (p : Params) (M : ℚ) (y : ℕ) :
    (asset_values_renting p M)[y + 1]? =
      Option.map₂ (fun prev s => prev * (1 + p.portfolio_return) + s)
        (asset_values_renting p M)[y]? (savings_rent_vs_buy p M)[y + 1]? := by
  rw [asset_values_renting, List.getElem?_drop, List.getElem?_drop,
    (by omega : 1 + (y + 1) = (1 + y) + 1), scanl_getElem?_succ,
    (by omega : y + 1 = 1 + y)]

theorem length_asset_values_renting (p : Params) (M : ℚ) :
    (asset_values_renting p M).length = p.time_frame + 1 := by
  rw [asset_values_renting, List.length_drop, List.length_scanl,
    length_savings]
  omega

/-! ### Concrete parameter sets for evaluation -/

/-- A concrete valid parameter set: widget values inside every slider's
range (zero deposit, integer return rates) together with the constants
fixed in `main`. -/
def exampleParams : Params where
  house_price := 800000
  deposit_pct := 0
  term := 30
  home_loan_rate := 3
  strata_council_cost := 1500
  home_insurance := 60
  transport_cost := 200
  weekly_rent := 690
  property_return := 0
  portfolio_return := 0
  inflation := 1/50
  rent_inflation := 3/100
  time_frame := 50
  max_rent := 100000

/-- An out-of-domain parameter set: the deposit fraction is 2, outside
`[0, 1]`. -/
def badParams : Params where
  house_price := 800000
  deposit_pct := 2
  term := 30
  home_loan_rate := 3
  strata_council_cost := 1500
  home_insurance := 60
  transport_cost := 200
  weekly_rent := 690
  property_return := 0
  portfolio_return := 0
  inflation := 1/50
  rent_inflation := 3/100
  time_frame := 50
  max_rent := 100000

/-! ### The claims -/

/-- Claim C1: for every valid input and every year `0 ≤ y ≤ horizon`, the
owning-scenario asset value at `y` equals
`housePrice * (1+propertyReturn)^y` minus the outstanding loan balance
sampled at period index `12*y+1` when `y < termYears`, and equals
`housePrice * (1+propertyReturn)^y` (balance contribution 0) when
`termYears ≤ y ≤ horizon`. -/
theorem property_asset_value_series (p : Params) (bal : ℕ → ℚ) (bl : List ℚ)
    (hv : Valid p) (hbl : balances p bal = some bl) (y : ℕ)
    (hy : y ≤ p.time_frame) :
    (y < p.term →
      (asset_values_owning p bl)[y]? =
        some (p.house_price * (1 + p.property_return) ^ y - bal (12 * y + 1)))
    ∧ (p.term ≤ y →
      (asset_values_owning p bl)[y]? =
        some (p.house_price * (1 + p.property_return) ^ y)) := by
  obtain ⟨_, _, _, _, _, hterm2, _, _, _, _, _, _, _, _, _, _, _, _, _, _, _,
    _, htf, _⟩ := hv
  have htn : p.term ≤ p.time_frame + 1 := by omega
  have hb := balancesLoop_getElem? bal p.time_frame p.term bl hbl htn y hy
  constructor
  · intro hlt
    rw [asset_values_owning_getElem? p bl y hy _ hb, if_pos hlt]
    congr 1
    ring
  · intro hge
    rw [asset_values_owning_getElem? p bl y hy _ hb,
      if_neg (not_lt.mpr hge)]
    congr 1
    ring

/-- Witness for C1: the concrete valid inputs, the zero balance function,
year 2 (inside the loan term). -/
theorem property_asset_value_series_witness :
    (asset_values_owning exampleParams (zeros 51))[2]? =
      some (exampleParams.house_price *
        (1 + exampleParams.property_return) ^ 2 - 0) :=
  (property_asset_value_series exampleParams (fun _ => 0) (zeros 51)
    (by norm_num [Valid, exampleParams]) (by decide) 2 (by decide)).1
    (by decide)

/-- Claim C2: any parameter set outside the stated domain (deposit
fraction outside `[0,1]`, horizon 0, a negative rate, principal ≤ 0, or
term 0) is rejected by the projection with `invalidParameter` before any
computation proceeds, so no partial series is produced. -/
theorem invalid_params_rejected (p : Params)
    (h : p.deposit_pct < 0 ∨ 1 < p.deposit_pct ∨ p.time_frame = 0 ∨
      p.home_loan_rate < 0 ∨ p.inflation < 0 ∨ p.rent_inflation < 0 ∨
      p.property_return < 0 ∨ p.portfolio_return < 0 ∨
      loan_principal p ≤ 0 ∨ p.term = 0) :
    project p = Except.error EngineError.invalidParameter := by
  have hc : ¬ (0 ≤ p.deposit_pct ∧ p.deposit_pct ≤ 1 ∧ 0 < p.time_frame ∧
      0 ≤ p.home_loan_rate ∧ 0 ≤ p.inflation ∧ 0 ≤ p.rent_inflation ∧
      0 ≤ p.property_return ∧ 0 ≤ p.portfolio_return ∧
      0 < loan_principal p ∧ 0 < p.term) := by
    intro hcon
    obtain ⟨h1, h2, h3, h4, h5, h6, h7, h8, h9, h10⟩ := hcon
    rcases h with h | h | h | h | h | h | h | h | h | h
    · exact absurd h1 (not_le.mpr h)
    · exact absurd h (not_lt.mpr h2)
    · omega
    · exact absurd h4 (not_le.mpr h)
    · exact absurd h5 (not_le.mpr h)
    · exact absurd h6 (not_le.mpr h)
    · exact absurd h7 (not_le.mpr h)
    · exact absurd h8 (not_le.mpr h)
    · exact absurd h9 (not_lt.mpr h)
    · omega
  rw [project, if_neg hc]

/-- Witness for C2: the parameter set with deposit fraction 2 is
rejected. -/
theorem invalid_params_rejected_witness :
    project badParams = Except.error EngineError.invalidParameter :=
  invalid_params_rejected badParams
    (Or.inr (Or.inl (by norm_num [badParams])))

/-- Claim C3: the renting-scenario portfolio starts at
`expenseDifference[0]`, which is the deposit amount, and satisfies the
recurrence `portfolio[y] = portfolio[y-1] * (1+portfolioReturn) +
expenseDifference[y]` for `1 ≤ y ≤ horizon`, where `expenseDifference[y] =
ownershipCost[y] + loanPayment[y] - rentCost[y]`. -/
theorem portfolio_accumulation (p : Params) (M : ℚ) (hv : Valid p) :
    (asset_values_renting p M)[0]? = (savings_rent_vs_buy p M)[0]?
    ∧ (savings_rent_vs_buy p M)[0]? = some (deposit_amt p)
    ∧ (∀ y : ℕ, 1 ≤ y → y ≤ p.time_frame →
        (asset_values_renting p M)[y]? =
          Option.map₂ (fun prev d => prev * (1 + p.portfolio_return) + d)
            (asset_values_renting p M)[y - 1]? (savings_rent_vs_buy p M)[y]?)
    ∧ (∀ y : ℕ, y ≤ p.time_frame →
        (savings_rent_vs_buy p M)[y]? =
          Option.map₂ (fun a b => a - b)
            (Option.map₂ (fun a b => a + b) (ownership_costs p)[y]?
              (loan_payments p M)[y]?)
            (rent_costs p)[y]?) := by
  obtain ⟨_, _, _, _, _, _, _, _, _, _, _, _, _, _, _, _, _, _, _, _, _, _,
    _, hmr⟩ := hv
  refine ⟨asset_values_renting_zero p M, ?_, ?_, ?_⟩
  · rw [savings_rent_vs_buy, zipWith_getElem?_eq, zipWith_getElem?_eq,
      ownership_costs_getElem? p 0 (by omega),
      loan_payments_getElem? p M 0 (by omega),
      rent_costs_getElem? p 0 (by omega), hmr]
    simp [Option.map₂, deposit_amt]
  · intro y h1 h2
    obtain ⟨y, rfl⟩ : ∃ z, y = z + 1 := ⟨y - 1, by omega⟩
    simpa using asset_values_renting_succ p M y
  · intro y hy
    rw [savings_rent_vs_buy, zipWith_getElem?_eq, zipWith_getElem?_eq]

/-- Witness for C3: at the concrete valid inputs the year-0 expense
difference is the deposit amount. -/
theorem portfolio_accumulation_witness :
    (savings_rent_vs_buy exampleParams 0)[0]? =
      some (deposit_amt exampleParams) :=
  (portfolio_accumulation exampleParams 0
    (by norm_num [Valid, exampleParams])).2.1

/-- Claim C4: rent cost is 0 at year 0 and equals
`min (weeklyRent * 52 * (1+rentInflation)^y) maxRent` for every `y ≥ 1`,
the cap being re-applied independently every year; consequently every
rent-cost entry is at most `maxRent`. -/
theorem rent_cost_cap (p : Params) (hv : Valid p) :
    (rent_costs p)[0]? = some 0
    ∧ (∀ y : ℕ, 1 ≤ y → y ≤ p.time_frame →
        (rent_costs p)[y]? =
          some (min (p.weekly_rent * 52 * (1 + p.rent_inflation) ^ y)
            p.max_rent))
    ∧ (∀ (y : ℕ) (v : ℚ), (rent_costs p)[y]? = some v → v ≤ p.max_rent) := by
  obtain ⟨_, _, _, _, _, _, _, _, _, _, _, _, _, _, _, _, _, _, _, _, _, _,
    _, hmr⟩ := hv
  refine ⟨?_, ?_, ?_⟩
  · rw [rent_costs_getElem? p 0 (by omega), if_pos rfl, hmr,
      min_eq_left (by norm_num : (0:ℚ) ≤ 100000)]
  · intro y h1 h2
    rw [rent_costs_getElem? p y h2, if_neg (by omega)]
  · intro y v hvv
    by_cases hy : y ≤ p.time_frame
    · rw [rent_costs_getElem? p y hy] at hvv
      injection hvv with hvv
      rw [← hvv]
      exact min_le_right _ _
    · have hnone : (rent_costs p)[y]? = none :=
        List.getElem?_eq_none (by rw [length_rent_costs]; omega)
      rw [hnone] at hvv
      exact Option.noConfusion hvv

/-- Witness for C4: at the concrete valid inputs the year-0 rent cost
is 0. -/
theorem rent_cost_cap_witness : (rent_costs exampleParams)[0]? = some 0 :=
  (rent_cost_cap exampleParams (by norm_num [Valid, exampleParams])).1

/-- Claim C5: the loan-payment series is the deposit amount
(`housePrice * depositFraction`) at year 0, the nominal `monthlyPayment *
12` for `1 ≤ y ≤ termYears`, and 0 for `termYears < y ≤ horizon`. -/
theorem loan_payment_series (p : Params) (M : ℚ) (hv : Valid p) :
    (loan_payments p M)[0]? = some (p.house_price * p.deposit_pct)
    ∧ (∀ y : ℕ, 1 ≤ y → y ≤ p.term → (loan_payments p M)[y]? = some (M * 12))
    ∧ (∀ y : ℕ, p.term < y → y ≤ p.time_frame →
        (loan_payments p M)[y]? = some 0) := by
  obtain ⟨_, _, _, _, _, hterm2, _, _, _, _, _, _, _, _, _, _, _, _, _, _, _,
    _, htf, _⟩ := hv
  refine ⟨?_, ?_, ?_⟩
  · rw [loan_payments_getElem? p M 0 (by omega), if_pos rfl]
    rfl
  · intro y h1 h2
    rw [loan_payments_getElem? p M y (by omega), if_neg (by omega),
      if_pos h2]
  · intro y h1 h2
    rw [loan_payments_getElem? p M y h2, if_neg (by omega),
      if_neg (by omega)]

/-- Witness for C5: at the concrete valid inputs the year-0 loan payment
is the deposit amount. -/
theorem loan_payment_series_witness :
    (loan_payments exampleParams 0)[0]? =
      some (exampleParams.house_price * exampleParams.deposit_pct) :=
  (loan_payment_series exampleParams 0 (by norm_num [Valid, exampleParams])).1

/-- Claim C6: ownership cost is 0 at year 0 and equals
`(maintenance + strataCouncilWater*4 + insurance*12 + transport*52) *
(1+inflation)^y` for `y ≥ 1`, with maintenance fixed at 1% of the initial
house price (never re-derived from the appreciated value). -/
theorem ownership_cost_series (p : Params) :
    (ownership_costs p)[0]? = some 0
    ∧ (∀ y : ℕ, 1 ≤ y → y ≤ p.time_frame →
        (ownership_costs p)[y]? =
          some ((0.01 * p.house_price + p.strata_council_cost * 4 +
            p.home_insurance * 12 + p.transport_cost * 52) *
            (1 + p.inflation) ^ y)) := by
  refine ⟨?_, ?_⟩
  · rw [ownership_costs_getElem? p 0 (by omega), if_pos rfl]
  · intro y h1 h2
    rw [ownership_costs_getElem? p y h2, if_neg (by omega)]
    rfl

/-- Witness for C6: the concrete valid inputs at year 1. -/
theorem ownership_cost_series_witness :
    (ownership_costs exampleParams)[1]? =
      some ((0.01 * exampleParams.house_price +
        exampleParams.strata_council_cost * 4 +
        exampleParams.home_insurance * 12 +
        exampleParams.transport_cost * 52) *
        (1 + exampleParams.inflation) ^ 1) :=
  (ownership_cost_series exampleParams).2 1 (by norm_num) (by decide)

/-- Claim C7: the interest rate handed to the amortization calculation is
the effective annual rate of daily compounding,
`(1 + nominalAnnualFraction/365)^365 - 1` with `nominalAnnualFraction` the
nominal percentage divided by 100, and this converted rate (not the
nominal rate) is the basis of the payment schedule and of the balance
function. -/
theorem daily_compound_rate_basis (p : Params) :
    loan_interest p = (1 + (p.home_loan_rate / 100) / 365) ^ (365 : ℕ) - 1
    ∧ home_loan_M p =
        monthly_payment (loan_principal p)
          ((1 + (p.home_loan_rate / 100) / 365) ^ (365 : ℕ) - 1) p.term
    ∧ ∀ k : ℕ, home_loan_bal p k =
        balance_after (loan_principal p)
          ((1 + (p.home_loan_rate / 100) / 365) ^ (365 : ℕ) - 1) p.term k :=
  ⟨rfl, rfl, fun _ => rfl⟩

/-- Claim C8: all six output series have length `horizon + 1`. -/
theorem series_lengths (p : Params) (M : ℚ) (bal : ℕ → ℚ) (bl : List ℚ)
    (hbl : balances p bal = some bl) :
    (ownership_costs p).length = p.time_frame + 1
    ∧ (loan_payments p M).length = p.time_frame + 1
    ∧ (rent_costs p).length = p.time_frame + 1
    ∧ (savings_rent_vs_buy p M).length = p.time_frame + 1
    ∧ (asset_values_owning p bl).length = p.time_frame + 1
    ∧ (asset_values_renting p M).length = p.time_frame + 1 := by
  have hbll := balancesLoop_length bal p.time_frame p.term bl hbl
  refine ⟨length_ownership_costs p, length_loan_payments p M,
    length_rent_costs p, length_savings p M, ?_,
    length_asset_values_renting p M⟩
  rw [asset_values_owning, List.length_zipWith,
    length_cumulative_property_return, hbll, min_self]

/-- Witness for C8 at the concrete valid inputs. -/
theorem series_lengths_witness :
    (ownership_costs exampleParams).length = exampleParams.time_frame + 1
    ∧ (loan_payments exampleParams 0).length = exampleParams.time_frame + 1
    ∧ (rent_costs exampleParams).length = exampleParams.time_frame + 1
    ∧ (savings_rent_vs_buy exampleParams 0).length =
        exampleParams.time_frame + 1
    ∧ (asset_values_owning exampleParams (zeros 51)).length =
        exampleParams.time_frame + 1
    ∧ (asset_values_renting exampleParams 0).length =
        exampleParams.time_frame + 1 :=
  series_lengths exampleParams 0 (fun _ => 0) (zeros 51) (by decide)

/-- Claim C9: for every valid input with positive inflation the
ownership-cost series is strictly increasing from year 1 on. -/
theorem ownership_cost_monotone (p : Params) (hv : Valid p)
    (hinfl : 0 < p.inflation) (y : ℕ) (h1 : 1 ≤ y)
    (hy : y + 1 ≤ p.time_frame) (a b : ℚ)
    (ha : (ownership_costs p)[y]? = some a)
    (hb : (ownership_costs p)[y + 1]? = some b) : a < b := by
  obtain ⟨hhp1, _, _, _, _, _, _, _, hsc1, _, hhi1, _, htc1, _, _, _, _, _,
    _, _, _, _, _, _⟩ := hv
  rw [ownership_costs_getElem? p y (by omega), if_neg (by omega)] at ha
  rw [ownership_costs_getElem? p (y + 1) hy, if_neg (by omega)] at hb
  injection ha with ha
  injection hb with hb
  have hT : 0 < total_ownership_cost p := by
    unfold total_ownership_cost maintenance_cost
    linarith
  have hbase : (0:ℚ) < 1 + p.inflation := by linarith
  have hpow : (0:ℚ) < (1 + p.inflation) ^ y := pow_pos hbase y
  rw [← ha, ← hb, pow_succ]
  nlinarith [mul_pos (mul_pos hT hpow) hinfl]

/-- Witness for C9: years 1 and 2 at the concrete valid inputs. -/
theorem ownership_cost_monotone_witness :
    total_ownership_cost exampleParams * (1 + exampleParams.inflation) ^ 1 <
      total_ownership_cost exampleParams *
        (1 + exampleParams.inflation) ^ 2 :=
  ownership_cost_monotone exampleParams (by norm_num [Valid, exampleParams])
    (by norm_num [exampleParams]) 1 (by norm_num) (by decide)
    (total_ownership_cost exampleParams * (1 + exampleParams.inflation) ^ 1)
    (total_ownership_cost exampleParams * (1 + exampleParams.inflation) ^ 2)
    (by rw [ownership_costs_getElem? exampleParams 1 (by decide),
      if_neg (by norm_num)])
    (by rw [ownership_costs_getElem? exampleParams 2 (by decide),
      if_neg (by norm_num)])

/-- Claim C10: whenever `termYears ≤ horizon` the balance loop writes only
indices `0..termYears-1` of the length-`horizon+1` series, so every write
is in bounds and the loop succeeds; and for an input with `termYears >
horizon+1` (here 52 > 51) the loop's index exceeds the series length and
it fails. -/
theorem balance_loop_bounds :
    (∀ (bal : ℕ → ℚ) (time_frame term : ℕ), term ≤ time_frame →
      (balancesLoop bal time_frame term).isSome = true)
    ∧ balancesLoop (fun _ => 0) 50 52 = none := by
  constructor
  · intro bal n t ht
    exact balancesLoop_isSome bal n t (by omega)
  · decide

/-- Witness for C10: the loop succeeds for term 30 on the 50-year
horizon. -/
theorem balance_loop_bounds_witness :
    (balancesLoop (fun _ => 0) 50 30).isSome = true :=
  balance_loop_bounds.1 (fun _ => 0) 50 30 (by norm_num)

end RentVsBuy
